import Mathlib

/-!
Verification of the kernel thread control subsystem (src/kthread.c).

The embedding models the thread control block, the page and slab
allocators, and the lifecycle operations kthread_create, kthread_destroy,
kthread_exit, kthread_cancel and kthread_clone. Collaborators that live
outside src (the page allocator, the slab allocator, the scheduler, the
architecture context initializer, and the configuration constants) are
modelled from the spec and marked as such in their doc comments.
-/

namespace KThread

/-- Thread states. The header kthread.h is not in src; the states are
modelled from the spec: RUNNABLE/RUNNING is the single state KT_RUN,
SLEEPING splits into non-cancellable KT_SLEEP and cancellable
KT_SLEEP_CANCELLABLE, and KT_EXITED is terminal. -/
inductive kt_state_t where
  | KT_RUN
  | KT_SLEEP
  | KT_SLEEP_CANCELLABLE
  | KT_EXITED
deriving DecidableEq, Repr

/-- Execution context (context_t). The architecture header is not in src;
modelled from the spec: saved register state, the kernel stack base and
size that kthread_clone rebinds, a page table pointer shared with the
process, and the entry point with its two arguments as the opaque
register bundle primed by context_setup. Addresses are natural numbers. -/
structure context_t where
  c_kstack : Nat
  c_kstacksz : Nat
  c_pdptr : Nat
  c_eip : Nat
  c_arg1 : Nat
  c_arg2 : Nat
deriving DecidableEq, Repr

/-- Thread control block, fields as assigned in src/kthread.c. Pointer
valued fields are Option Nat with none standing for NULL. The two
intrusive list links kt_qlink and kt_plink are modelled by their linked
flag, which is what list_link_init, list_insert_tail, list_remove and
list_link_is_linked observe. -/
structure kthread_t where
  kt_ctx : context_t
  kt_kstack : Option Nat
  kt_retval : Option Nat
  kt_errno : Nat
  kt_proc : Option Nat
  kt_cancelled : Bool
  kt_wchan : Option Nat
  kt_state : kt_state_t
  kt_qlink : Bool
  kt_plink : Bool
deriving DecidableEq, Repr

/-- Process record as seen by this core: a page directory pointer and the
thread collection, which list_insert_tail appends to. The proc header is
not in src; modelled from the spec. Threads are listed by their control
block address. -/
structure proc_t where
  p_pagedir : Nat
  p_threads : List Nat
deriving DecidableEq, Repr

/-- Modelled from the spec: state of the page allocator (mm/page.c is not
in src). A bump allocator with an availability counter models contiguous
page allocation; freed logs each page_free_n call as the pair of the base
address and the page count handed back. -/
structure MM where
  nextPage : Nat
  avail : Nat
  freed : List (Nat × Nat)
deriving DecidableEq, Repr

/-- Modelled from the spec: page_alloc_n requests n contiguous pages and
returns a failure signal (NULL) under memory pressure rather than
retrying. -/
def page_alloc_n (mm : MM) (n : Nat) : Option Nat × MM :=
  if n ≤ mm.avail then
    (some mm.nextPage, { mm with nextPage := mm.nextPage + n, avail := mm.avail - n })
  else
    (none, mm)

/-- Modelled from the spec: page_free_n returns n pages at the given base
address to the allocator; the model records the call in the freed log. -/
def page_free_n (mm : MM) (addr : Nat) (n : Nat) : MM :=
  { mm with freed := mm.freed ++ [(addr, n)] }

/-- Modelled from the spec: DEFAULT_STACK_SIZE lives in config.h, which is
not in src. The stock configuration uses a 56 KiB stack. -/
def DEFAULT_STACK_SIZE : Nat := 56 * 1024

/-- Modelled from the spec: PAGE_SHIFT lives in the memory headers, which
are not in src. The stock configuration uses 4 KiB pages. -/
def PAGE_SHIFT : Nat := 12

/-- The page count computed in alloc_stack and free_stack, literally
1 + (DEFAULT_STACK_SIZE >> PAGE_SHIFT), kept generic in the two
configuration constants. The extra page holds the magic guard data. -/
def stack_npages (dss pshift : Nat) : Nat :=
  1 + (dss >>> pshift)

/-- alloc_stack from src/kthread.c: requests the stack pages plus the
extra page from page_alloc_n and returns the result, NULL included. -/
def alloc_stack (mm : MM) : Option Nat × MM :=
  page_alloc_n mm (stack_npages DEFAULT_STACK_SIZE PAGE_SHIFT)

/-- free_stack from src/kthread.c: hands the same page count back to
page_free_n at the given stack base. -/
def free_stack (mm : MM) (stack : Nat) : MM :=
  page_free_n mm stack (stack_npages DEFAULT_STACK_SIZE PAGE_SHIFT)

/-- Modelled from the spec: state of the fixed size object pool backing
the TCB registry (mm/slab.c is not in src). A bump counter with an
availability count; exhaustion returns NULL. -/
structure slab_allocator_t where
  next : Nat
  avail : Nat
deriving DecidableEq, Repr

/-- Modelled from the spec: slab_obj_alloc produces a control block from
the pool, or NULL on exhaustion. The content of the produced block is
uninitialized memory; operations that read fields they never wrote take
that prior content as an explicit argument. -/
def slab_obj_alloc (s : slab_allocator_t) : Option Nat × slab_allocator_t :=
  if 0 < s.avail then
    (some s.next, { s with next := s.next + 1, avail := s.avail - 1 })
  else
    (none, s)

/-- Modelled from the spec: context_setup is the architecture specific
context initializer (not in src). It primes the context to resume at the
entry point with the two arguments, on the given stack, with the page
table of the process; assumed total for valid inputs. -/
def context_setup (func arg1 arg2 kstack kstacksz pagedir : Nat) : context_t :=
  { c_kstack := kstack, c_kstacksz := kstacksz, c_pdptr := pagedir,
    c_eip := func, c_arg1 := arg1, c_arg2 := arg2 }

/-- Outcome of kthread_create. The C function returns a kthread_t pointer,
so the returned value is an optional address paired with the block it
points to; abort is a failed KASSERT. -/
inductive CreateResult where
  | ret (r : Option (Nat × kthread_t)) (p : proc_t) (slab : slab_allocator_t) (mm : MM)
  | abort
deriving DecidableEq, Repr

/-- kthread_create from src/kthread.c. Asserts the process pointer is
non-null, allocates a control block (KASSERT on exhaustion) and a stack
(KASSERT on exhaustion), primes the context via context_setup with arg1
truncated to int, initializes every field, initializes the queue link and
appends the process link to the thread collection of the process, and
returns the new block. -/
def kthread_create (slab : slab_allocator_t) (mm : MM) (pPtr : Option Nat) (p : proc_t)
    (func arg1 arg2 : Nat) : CreateResult :=
  if pPtr = none then
    CreateResult.abort
  else
    match slab_obj_alloc slab with
    | (none, _) => CreateResult.abort
    | (some addr, slab1) =>
      match alloc_stack mm with
      | (none, _) => CreateResult.abort
      | (some ktstack, mm1) =>
        let ctx := context_setup func (arg1 % 2 ^ 32) arg2 ktstack DEFAULT_STACK_SIZE p.p_pagedir
        let t : kthread_t :=
          { kt_ctx := ctx, kt_kstack := some ktstack, kt_retval := none, kt_errno := 0,
            kt_proc := pPtr, kt_cancelled := false, kt_wchan := none,
            kt_state := kt_state_t.KT_RUN, kt_qlink := false, kt_plink := true }
        CreateResult.ret (some (addr, t)) { p with p_threads := p.p_threads ++ [addr] } slab1 mm1

/-- kthread_destroy from src/kthread.c. KASSERT(t and t.kt_kstack), then
free_stack on the kernel stack, then list_remove on the process link if it
is linked, then slab_obj_free returns the block to the pool with its
fields left in place (the slab model does not scribble freed objects).
Returns the final memory content at the address of t and the allocator
state. -/
def kthread_destroy (mm : MM) (tPtr : Option Nat) (t : kthread_t) :
    Option (kthread_t × MM) :=
  match tPtr, t.kt_kstack with
  | some _, some stk =>
    let mm1 := free_stack mm stk
    let t1 := if t.kt_plink then { t with kt_plink := false } else t
    some (t1, mm1)
  | _, _ => none

/-- Observable events emitted by kthread_exit, in program order. -/
inductive KtEvent where
  | setRetval (v : Option Nat)
  | setState (s : kt_state_t)
  | notifyProcThreadExited (v : Option Nat)
deriving DecidableEq, Repr

/-- Outcome of kthread_exit. handoff carries the final state of the
exiting thread and the event trace ending in the proc_thread_exited
notification, after which control never comes back (the source line after
it is a panic guard); ret would be control returning to the caller and is
never produced; abort is a failed KASSERT. -/
inductive ExitResult where
  | handoff (t : kthread_t) (trace : List KtEvent)
  | ret (t : kthread_t)
  | abort
deriving DecidableEq, Repr

/-- kthread_exit from src/kthread.c. Stores retval first, then asserts
that curthr is on no wait channel, that its queue link is unlinked, and
that it belongs to curproc; then flips the state to KT_EXITED and hands
off to proc_thread_exited, never returning. -/
def kthread_exit (cur : kthread_t) (curproc : Option Nat) (retval : Option Nat) :
    ExitResult :=
  let c1 : kthread_t := { cur with kt_retval := retval }
  if c1.kt_wchan ≠ none then
    ExitResult.abort
  else if c1.kt_qlink then
    ExitResult.abort
  else if c1.kt_proc ≠ curproc then
    ExitResult.abort
  else
    ExitResult.handoff { c1 with kt_state := kt_state_t.KT_EXITED }
      [KtEvent.setRetval retval, KtEvent.setState kt_state_t.KT_EXITED,
       KtEvent.notifyProcThreadExited retval]

/-- Modelled from the spec: sched_cancel lives in sched.c, which is not in
src. Per the spec and the call site comment, it sets the cancellation
flag of the target; if the target is in a cancellable sleep it removes it
from its wait queue and marks it runnable (clearing the wait channel),
and otherwise does nothing further. -/
def sched_cancel (thr : kthread_t) : kthread_t :=
  let t1 : kthread_t := { thr with kt_cancelled := true }
  if t1.kt_state = kt_state_t.KT_SLEEP_CANCELLABLE then
    { t1 with kt_state := kt_state_t.KT_RUN, kt_wchan := none, kt_qlink := false }
  else
    t1

/-- Outcome of kthread_cancel: exitPath is the self cancellation branch,
which runs kthread_exit and never returns; ret is the cross thread branch
returning to the caller with the updated target; abort is the failed
KASSERT on a null target. -/
inductive CancelResult where
  | exitPath (r : ExitResult)
  | ret (t : kthread_t)
  | abort
deriving DecidableEq, Repr

/-- kthread_cancel from src/kthread.c. Asserts the target pointer is
non-null; if the target is curthr it calls kthread_exit (the line after
is a panic guard, control never returns); otherwise it stores retval into
the target and delegates to sched_cancel. -/
def kthread_cancel (curId : Nat) (cur : kthread_t) (curproc : Option Nat)
    (kthrPtr : Option Nat) (kthr : kthread_t) (retval : Option Nat) : CancelResult :=
  if kthrPtr = none then
    CancelResult.abort
  else if kthrPtr = some curId then
    CancelResult.exitPath (kthread_exit cur curproc retval)
  else
    CancelResult.ret (sched_cancel { kthr with kt_retval := retval })

/-- Outcome of kthread_clone, shaped like CreateResult without the
process (clone leaves process wiring to the fork caller). -/
inductive CloneResult where
  | ret (r : Option (Nat × kthread_t)) (slab : slab_allocator_t) (mm : MM)
  | abort
deriving DecidableEq, Repr

/-- kthread_clone from src/kthread.c. Asserts the source is KT_RUN;
allocates a control block (KASSERT on exhaustion) whose uninitialized
prior content is the fresh argument; allocates a context stack and
rebinds c_kstack (cast to uint32) and c_kstacksz to it, leaving the rest
of the context untouched for fork to set; allocates a separate kernel
stack for kt_kstack; copies retval, errno, the cancellation flag and the
wait channel from the source; clears the process pointer; sets KT_RUN;
and initializes both list links unlinked. -/
def kthread_clone (slab : slab_allocator_t) (mm : MM) (thr : kthread_t)
    (fresh : kthread_t) : CloneResult :=
  if thr.kt_state ≠ kt_state_t.KT_RUN then
    CloneResult.abort
  else
    match slab_obj_alloc slab with
    | (none, _) => CloneResult.abort
    | (some addr, slab1) =>
      match alloc_stack mm with
      | (none, _) => CloneResult.abort
      | (some contextstack, mm1) =>
        let ctx1 : context_t :=
          { fresh.kt_ctx with
              c_kstack := contextstack % 2 ^ 32,
              c_kstacksz := DEFAULT_STACK_SIZE }
        let n0 : kthread_t := { fresh with kt_ctx := ctx1 }
        match alloc_stack mm1 with
        | (none, _) => CloneResult.abort
        | (some kernelstack, mm2) =>
          let newthr : kthread_t :=
            { n0 with
                kt_kstack := some kernelstack,
                kt_retval := thr.kt_retval, kt_errno := thr.kt_errno,
                kt_proc := none, kt_cancelled := thr.kt_cancelled,
                kt_wchan := thr.kt_wchan, kt_state := kt_state_t.KT_RUN,
                kt_qlink := false, kt_plink := false }
          CloneResult.ret (some (addr, newthr)) slab1 mm2

/-- A thread counts as SLEEPING in either sleep state. -/
def ktSleeping (t : kthread_t) : Bool :=
  t.kt_state = kt_state_t.KT_SLEEP || t.kt_state = kt_state_t.KT_SLEEP_CANCELLABLE

/-- The queue membership invariant of the spec: the queue link is linked
exactly when the thread is SLEEPING with a non-null wait channel, and the
wait channel is null unless the thread is SLEEPING. -/
def ktInv (t : kthread_t) : Bool :=
  (t.kt_qlink == (ktSleeping t && t.kt_wchan.isSome)) &&
    (ktSleeping t || t.kt_wchan.isNone)

/-- A concrete runnable thread used as input in concrete instantiations. -/
def sampleThread : kthread_t :=
  { kt_ctx := { c_kstack := 11, c_kstacksz := DEFAULT_STACK_SIZE, c_pdptr := 3,
                c_eip := 7, c_arg1 := 1, c_arg2 := 2 },
    kt_kstack := some 11, kt_retval := none, kt_errno := 0, kt_proc := some 1,
    kt_cancelled := false, kt_wchan := none, kt_state := kt_state_t.KT_RUN,
    kt_qlink := false, kt_plink := true }

/-- A concrete block of uninitialized slab memory whose context differs
from the context of sampleThread in every non-stack field. -/
def sampleFresh : kthread_t :=
  { sampleThread with
      kt_ctx := { c_kstack := 0, c_kstacksz := 0, c_pdptr := 0, c_eip := 0,
                  c_arg1 := 0, c_arg2 := 0 } }

/-- A concrete thread blocked in a cancellable sleep on wait channel 8. -/
def sampleSleeper : kthread_t :=
  { sampleThread with
      kt_state := kt_state_t.KT_SLEEP_CANCELLABLE, kt_wchan := some 8,
      kt_qlink := true }

/-- The context kthread_clone returns, projected out of its result for
stating what the claim says about the copied execution context; none when
clone aborted or returned null. -/
def cloneCtx (r : CloneResult) : Option context_t :=
  match r with
  | CloneResult.ret (some (_, t)) _ _ => some t.kt_ctx
  | _ => none

/-- The control block kthread_clone builds when both allocations succeed,
spelled out against the bump allocator model for reuse in the theorems:
the context stack is the first allocation, the kernel stack the second,
and the context apart from its stack fields is the uninitialized slab
content. -/
def cloneNewThread (mm : MM) (thr fresh : kthread_t) : kthread_t :=
  { kt_ctx :=
      { fresh.kt_ctx with
          c_kstack := mm.nextPage % 2 ^ 32,
          c_kstacksz := DEFAULT_STACK_SIZE },
    kt_kstack := some (mm.nextPage + stack_npages DEFAULT_STACK_SIZE PAGE_SHIFT),
    kt_retval := thr.kt_retval, kt_errno := thr.kt_errno, kt_proc := none,
    kt_cancelled := thr.kt_cancelled, kt_wchan := thr.kt_wchan,
    kt_state := kt_state_t.KT_RUN, kt_qlink := false, kt_plink := false }

/-- The page allocator state after the two stack allocations of a
successful kthread_clone. -/
def cloneMMAfter (mm : MM) : MM :=
  { mm with
      nextPage := mm.nextPage + stack_npages DEFAULT_STACK_SIZE PAGE_SHIFT +
        stack_npages DEFAULT_STACK_SIZE PAGE_SHIFT,
      avail := mm.avail - stack_npages DEFAULT_STACK_SIZE PAGE_SHIFT -
        stack_npages DEFAULT_STACK_SIZE PAGE_SHIFT }

theorem slab_obj_alloc_pos (s : slab_allocator_t) (h : 0 < s.avail) :
    slab_obj_alloc s = (some s.next, { s with next := s.next + 1, avail := s.avail - 1 }) := by
  simp [slab_obj_alloc, h]

theorem slab_obj_alloc_exhausted (s : slab_allocator_t) (h : s.avail = 0) :
    slab_obj_alloc s = (none, s) := by
  simp [slab_obj_alloc, h]

theorem page_alloc_n_le (mm : MM) (n : Nat) (h : n ≤ mm.avail) :
    page_alloc_n mm n =
      (some mm.nextPage, { mm with nextPage := mm.nextPage + n, avail := mm.avail - n }) := by
  simp [page_alloc_n, h]

theorem page_alloc_n_gt (mm : MM) (n : Nat) (h : mm.avail < n) :
    page_alloc_n mm n = (none, mm) := by
  have h2 : ¬ n ≤ mm.avail := by omega
  simp [page_alloc_n, h2]

/-- C1: for every valid process, entry function and argument pair,
kthread_create returns a new non-null control block in state KT_RUN with
the cancellation flag clear, null result, zero errno, null wait channel
and no queue membership, appended to the thread collection of the
process; it never returns a null pointer, and exhaustion of the control
block pool or of the stack pages ends in a KASSERT abort instead. -/
theorem kthread_create_C1
    (slab : slab_allocator_t) (mm : MM) (pid : Nat) (p : proc_t) (func arg1 arg2 : Nat)
    (hslab : 0 < slab.avail)
    (hmm : stack_npages DEFAULT_STACK_SIZE PAGE_SHIFT ≤ mm.avail) :
    (∃ addr t p1 slab1 mm1,
      kthread_create slab mm (some pid) p func arg1 arg2 =
        CreateResult.ret (some (addr, t)) p1 slab1 mm1 ∧
      t.kt_state = kt_state_t.KT_RUN ∧ t.kt_cancelled = false ∧ t.kt_retval = none ∧
      t.kt_errno = 0 ∧ t.kt_wchan = none ∧ t.kt_qlink = false ∧ t.kt_plink = true ∧
      t.kt_proc = some pid ∧ p1.p_threads = p.p_threads ++ [addr]) ∧
    (∀ (s2 : slab_allocator_t) (m2 : MM) (p2 : proc_t) (s3 : slab_allocator_t) (m3 : MM),
      kthread_create s2 m2 (some pid) p func arg1 arg2 ≠ CreateResult.ret none p2 s3 m3) ∧
    (∀ (s4 : slab_allocator_t) (m4 : MM), s4.avail = 0 →
      kthread_create s4 m4 (some pid) p func arg1 arg2 = CreateResult.abort) ∧
    (∀ (s5 : slab_allocator_t) (m5 : MM), 0 < s5.avail →
      m5.avail < stack_npages DEFAULT_STACK_SIZE PAGE_SHIFT →
      kthread_create s5 m5 (some pid) p func arg1 arg2 = CreateResult.abort) := by
  refine ⟨?_, ?_, ?_, ?_⟩
  · refine ⟨slab.next,
      { kt_ctx := context_setup func (arg1 % 2 ^ 32) arg2 mm.nextPage DEFAULT_STACK_SIZE
          p.p_pagedir,
        kt_kstack := some mm.nextPage, kt_retval := none, kt_errno := 0,
        kt_proc := some pid, kt_cancelled := false, kt_wchan := none,
        kt_state := kt_state_t.KT_RUN, kt_qlink := false, kt_plink := true },
      { p with p_threads := p.p_threads ++ [slab.next] },
      { slab with next := slab.next + 1, avail := slab.avail - 1 },
      { mm with
          nextPage := mm.nextPage + stack_npages DEFAULT_STACK_SIZE PAGE_SHIFT,
          avail := mm.avail - stack_npages DEFAULT_STACK_SIZE PAGE_SHIFT },
      ?_, rfl, rfl, rfl, rfl, rfl, rfl, rfl, rfl, rfl⟩
    unfold kthread_create
    rw [slab_obj_alloc_pos slab hslab]
    unfold alloc_stack
    rw [page_alloc_n_le mm _ hmm]
    rfl
  · intro s2 m2 p2 s3 m3 heq
    unfold kthread_create at heq
    rw [if_neg (by simp)] at heq
    rcases h2 : slab_obj_alloc s2 with ⟨o, s2x⟩
    rw [h2] at heq
    rcases o with _ | a
    · exact absurd heq (by simp)
    · rcases h3 : alloc_stack m2 with ⟨o3, m2x⟩
      rw [h3] at heq
      rcases o3 with _ | stk
      · exact absurd heq (by simp)
      · simp at heq
  · intro s4 m4 h4
    unfold kthread_create
    rw [if_neg (by simp), slab_obj_alloc_exhausted s4 h4]
  · intro s5 m5 h5 h5m
    unfold kthread_create
    rw [if_neg (by simp), slab_obj_alloc_pos s5 h5]
    unfold alloc_stack
    rw [page_alloc_n_gt m5 _ h5m]

/-- C1 witness: a concrete successful creation and concrete aborts. -/
theorem kthread_create_C1_witness :
    ∃ addr t p1 slab1 mm1,
      kthread_create ⟨1, 1⟩ ⟨100, 30, []⟩ (some 5) ⟨77, [9]⟩ 7 3 4 =
        CreateResult.ret (some (addr, t)) p1 slab1 mm1 ∧
      t.kt_state = kt_state_t.KT_RUN ∧ t.kt_cancelled = false ∧ t.kt_retval = none ∧
      t.kt_errno = 0 ∧ t.kt_wchan = none ∧ t.kt_qlink = false ∧ t.kt_plink = true ∧
      t.kt_proc = some 5 ∧ p1.p_threads = [9] ++ [addr] :=
  (kthread_create_C1 ⟨1, 1⟩ ⟨100, 30, []⟩ 5 ⟨77, [9]⟩ 7 3 4
    (by decide) (by decide)).1

/-- C2: kthread_exit, whose asserted precondition is that the calling
thread holds no queue membership, stores retval into the result slot
first, flips the state to KT_EXITED after that, then hands off to
proc_thread_exited, and never returns control to its caller: the event
trace is exactly setRetval, then setState KT_EXITED, then the
notification, the ret outcome is never produced, and a thread that still
holds queue membership aborts on the KASSERT. -/
theorem kthread_exit_C2 (cur : kthread_t) (cp r : Option Nat)
    (hw : cur.kt_wchan = none) (hq : cur.kt_qlink = false) (hp : cur.kt_proc = cp) :
    (kthread_exit cur cp r =
      ExitResult.handoff { cur with kt_retval := r, kt_state := kt_state_t.KT_EXITED }
        [KtEvent.setRetval r, KtEvent.setState kt_state_t.KT_EXITED,
         KtEvent.notifyProcThreadExited r]) ∧
    (∀ (c : kthread_t) (cp2 r2 : Option Nat) (t : kthread_t),
      kthread_exit c cp2 r2 ≠ ExitResult.ret t) ∧
    (∀ (c : kthread_t) (cp2 r2 : Option Nat), c.kt_qlink = true →
      kthread_exit c cp2 r2 = ExitResult.abort) := by
  refine ⟨?_, ?_, ?_⟩
  · unfold kthread_exit
    rw [if_neg (by simp [hw]), if_neg (by simp [hq]), if_neg (by simp [hp])]
  · intro c cp2 r2 t heq
    unfold kthread_exit at heq
    dsimp only at heq
    split_ifs at heq
  · intro c cp2 r2 hq2
    unfold kthread_exit
    dsimp only
    split_ifs <;> rfl

/-- C2 witness: a concrete exiting thread with no queue membership. -/
theorem kthread_exit_C2_witness :
    kthread_exit sampleThread (some 1) (some 99) =
      ExitResult.handoff
        { sampleThread with kt_retval := some 99, kt_state := kt_state_t.KT_EXITED }
        [KtEvent.setRetval (some 99), KtEvent.setState kt_state_t.KT_EXITED,
         KtEvent.notifyProcThreadExited (some 99)] :=
  (kthread_exit_C2 sampleThread (some 1) (some 99) (by decide) (by decide) (by decide)).1

/-- C3: cancelling the calling thread itself is observably identical to
kthread_exit on the same retval: the cancel outcome is exactly the
kthread_exit outcome, reached through the very same code path, and
control never returns to the caller. -/
theorem kthread_cancel_self_C3 (curId : Nat) (cur kthr : kthread_t) (cp r : Option Nat) :
    kthread_cancel curId cur cp (some curId) kthr r =
      CancelResult.exitPath (kthread_exit cur cp r) ∧
    (∀ t, kthread_cancel curId cur cp (some curId) kthr r ≠ CancelResult.ret t) := by
  constructor
  · unfold kthread_cancel
    rw [if_neg (by simp), if_pos rfl]
  · intro t heq
    unfold kthread_cancel at heq
    rw [if_neg (by simp), if_pos rfl] at heq
    exact absurd heq (by simp)

/-- C3 witness: a concrete self cancellation. -/
theorem kthread_cancel_self_C3_witness :
    kthread_cancel 5 sampleThread (some 1) (some 5) sampleThread (some 42) =
      CancelResult.exitPath (kthread_exit sampleThread (some 1) (some 42)) :=
  (kthread_cancel_self_C3 5 sampleThread sampleThread (some 1) (some 42)).1

/-- C4: cancelling a non-null target other than the calling thread stores
retval into the target, sets its cancellation flag, wakes it (dequeues it,
marks it runnable and clears its wait channel) exactly when it is in a
cancellable sleep and otherwise leaves state, wait channel and queue link
unchanged; the call returns to the caller (it never takes the exit path)
and never itself moves the target to KT_EXITED. -/
theorem kthread_cancel_other_C4 (curId tid : Nat) (cur kthr : kthread_t)
    (cp r : Option Nat) (hne : tid ≠ curId) :
    ∃ t2, kthread_cancel curId cur cp (some tid) kthr r = CancelResult.ret t2 ∧
      t2.kt_retval = r ∧ t2.kt_cancelled = true ∧
      (kthr.kt_state = kt_state_t.KT_SLEEP_CANCELLABLE →
        t2.kt_state = kt_state_t.KT_RUN ∧ t2.kt_wchan = none ∧ t2.kt_qlink = false) ∧
      (kthr.kt_state ≠ kt_state_t.KT_SLEEP_CANCELLABLE →
        t2.kt_state = kthr.kt_state ∧ t2.kt_wchan = kthr.kt_wchan ∧
          t2.kt_qlink = kthr.kt_qlink) ∧
      (kthr.kt_state ≠ kt_state_t.KT_EXITED → t2.kt_state ≠ kt_state_t.KT_EXITED) ∧
      (∀ e, kthread_cancel curId cur cp (some tid) kthr r ≠ CancelResult.exitPath e) := by
  refine ⟨sched_cancel { kthr with kt_retval := r }, ?_, ?_, ?_, ?_, ?_, ?_, ?_⟩
  · unfold kthread_cancel
    rw [if_neg (by simp), if_neg (by simp [hne])]
  · unfold sched_cancel
    dsimp only
    split <;> rfl
  · unfold sched_cancel
    dsimp only
    split <;> rfl
  · intro hs
    unfold sched_cancel
    dsimp only
    rw [if_pos (by simpa using hs)]
    exact ⟨rfl, rfl, rfl⟩
  · intro hs
    unfold sched_cancel
    dsimp only
    rw [if_neg (by simpa using hs)]
    exact ⟨rfl, rfl, rfl⟩
  · intro hx
    unfold sched_cancel
    dsimp only
    split
    · simp
    · exact hx
  · intro e heq
    unfold kthread_cancel at heq
    rw [if_neg (by simp), if_neg (by simp [hne])] at heq
    exact absurd heq (by simp)

/-- C4 witness: cancelling a concrete thread in a cancellable sleep. -/
theorem kthread_cancel_other_C4_witness :
    ∃ t2, kthread_cancel 5 sampleThread (some 1) (some 6) sampleSleeper (some 42) =
        CancelResult.ret t2 ∧
      t2.kt_retval = some 42 ∧ t2.kt_cancelled = true ∧
      (sampleSleeper.kt_state = kt_state_t.KT_SLEEP_CANCELLABLE →
        t2.kt_state = kt_state_t.KT_RUN ∧ t2.kt_wchan = none ∧ t2.kt_qlink = false) := by
  obtain ⟨t2, h1, h2, h3, h4, _⟩ :=
    kthread_cancel_other_C4 5 6 sampleThread sampleSleeper (some 1) (some 42) (by decide)
  exact ⟨t2, h1, h2, h3, h4⟩

/-- Helper: the value kthread_clone computes when the source is runnable
and the pool and the page allocator have capacity for one block and two
stacks. -/
theorem kthread_clone_success (slab : slab_allocator_t) (mm : MM) (thr fresh : kthread_t)
    (hrun : thr.kt_state = kt_state_t.KT_RUN) (hslab : 0 < slab.avail)
    (hmm : 2 * stack_npages DEFAULT_STACK_SIZE PAGE_SHIFT ≤ mm.avail) :
    kthread_clone slab mm thr fresh =
      CloneResult.ret (some (slab.next, cloneNewThread mm thr fresh))
        { slab with next := slab.next + 1, avail := slab.avail - 1 }
        (cloneMMAfter mm) := by
  have h1 : stack_npages DEFAULT_STACK_SIZE PAGE_SHIFT ≤ mm.avail := by omega
  have h2 : stack_npages DEFAULT_STACK_SIZE PAGE_SHIFT ≤
      mm.avail - stack_npages DEFAULT_STACK_SIZE PAGE_SHIFT := by omega
  have e1 := slab_obj_alloc_pos slab hslab
  have e2 := page_alloc_n_le mm _ h1
  have e3 :
      page_alloc_n
        { mm with
            nextPage := mm.nextPage + stack_npages DEFAULT_STACK_SIZE PAGE_SHIFT,
            avail := mm.avail - stack_npages DEFAULT_STACK_SIZE PAGE_SHIFT }
        (stack_npages DEFAULT_STACK_SIZE PAGE_SHIFT) =
      (some (mm.nextPage + stack_npages DEFAULT_STACK_SIZE PAGE_SHIFT),
        cloneMMAfter mm) :=
    page_alloc_n_le _ _ h2
  unfold kthread_clone
  rw [if_neg (by simp [hrun])]
  rw [e1]
  unfold alloc_stack
  simp only [e2, e3]
  rfl

/-- C5 counterexample: at a concrete runnable source thread whose context
has entry point 7, and uninitialized slab content with entry point 0,
kthread_clone succeeds but the resulting context is not the source
context with only the stack pointer and stack size rebound: the entry
point field was not copied. Hence clone does not copy the execution
context of the source. -/
theorem kthread_clone_C5_counterexample :
    ¬ ∃ stk : Nat,
      cloneCtx (kthread_clone ⟨1, 1⟩ ⟨100, 30, []⟩ sampleThread sampleFresh) =
        some { sampleThread.kt_ctx with c_kstack := stk, c_kstacksz := DEFAULT_STACK_SIZE } := by
  rintro ⟨stk, h⟩
  have h2 := congrArg (Option.map context_t.c_eip) h
  have h3 : (cloneCtx (kthread_clone ⟨1, 1⟩ ⟨100, 30, []⟩ sampleThread sampleFresh)).map
      context_t.c_eip = some 0 := by rfl
  have h4 : (some { sampleThread.kt_ctx with c_kstack := stk, c_kstacksz := DEFAULT_STACK_SIZE } :
      Option context_t).map context_t.c_eip = some 7 := by rfl
  rw [h3, h4] at h2
  exact absurd h2 (by decide)

/-- C5 amended: for every runnable source thread, kthread_clone rebinds
only the stack pointer and the stack size of the execution context of the
new control block, binding them to the first freshly allocated stack and
DEFAULT_STACK_SIZE; the remaining context fields are not copied from the
source but keep the uninitialized slab content, left for the forking
caller to set. -/
theorem kthread_clone_C5_amended (slab : slab_allocator_t) (mm : MM) (thr fresh : kthread_t)
    (hrun : thr.kt_state = kt_state_t.KT_RUN) (hslab : 0 < slab.avail)
    (hmm : 2 * stack_npages DEFAULT_STACK_SIZE PAGE_SHIFT ≤ mm.avail) :
    ∃ addr t slab1 mm1,
      kthread_clone slab mm thr fresh = CloneResult.ret (some (addr, t)) slab1 mm1 ∧
      t.kt_ctx.c_kstack = mm.nextPage % 2 ^ 32 ∧
      t.kt_ctx.c_kstacksz = DEFAULT_STACK_SIZE ∧
      t.kt_ctx.c_pdptr = fresh.kt_ctx.c_pdptr ∧
      t.kt_ctx.c_eip = fresh.kt_ctx.c_eip ∧
      t.kt_ctx.c_arg1 = fresh.kt_ctx.c_arg1 ∧
      t.kt_ctx.c_arg2 = fresh.kt_ctx.c_arg2 :=
  ⟨slab.next, cloneNewThread mm thr fresh,
    { slab with next := slab.next + 1, avail := slab.avail - 1 }, cloneMMAfter mm,
    kthread_clone_success slab mm thr fresh hrun hslab hmm,
    rfl, rfl, rfl, rfl, rfl, rfl⟩

/-- C5 amended witness: a concrete successful clone. -/
theorem kthread_clone_C5_amended_witness :
    ∃ addr t slab1 mm1,
      kthread_clone ⟨1, 1⟩ ⟨100, 30, []⟩ sampleThread sampleFresh =
        CloneResult.ret (some (addr, t)) slab1 mm1 ∧
      t.kt_ctx.c_kstack = 100 % 2 ^ 32 ∧
      t.kt_ctx.c_kstacksz = DEFAULT_STACK_SIZE ∧
      t.kt_ctx.c_pdptr = sampleFresh.kt_ctx.c_pdptr ∧
      t.kt_ctx.c_eip = sampleFresh.kt_ctx.c_eip ∧
      t.kt_ctx.c_arg1 = sampleFresh.kt_ctx.c_arg1 ∧
      t.kt_ctx.c_arg2 = sampleFresh.kt_ctx.c_arg2 :=
  kthread_clone_C5_amended ⟨1, 1⟩ ⟨100, 30, []⟩ sampleThread sampleFresh
    (by decide) (by decide) (by decide)

/-- C6: for every runnable source thread, kthread_clone produces a new
control block that copies the result value, the errno scratch field, the
cancellation flag and the wait channel reference from the source, starts
in state KT_RUN, holds neither queue nor collection membership, has its
process pointer unassigned, and owns a non-null kernel stack distinct
from the kernel stack of the source. -/
theorem kthread_clone_C6 (slab : slab_allocator_t) (mm : MM) (thr fresh : kthread_t)
    (hrun : thr.kt_state = kt_state_t.KT_RUN) (hslab : 0 < slab.avail)
    (hmm : 2 * stack_npages DEFAULT_STACK_SIZE PAGE_SHIFT ≤ mm.avail)
    (hstk : ∀ a : Nat, thr.kt_kstack = some a → a < mm.nextPage) :
    ∃ addr t slab1 mm1,
      kthread_clone slab mm thr fresh = CloneResult.ret (some (addr, t)) slab1 mm1 ∧
      t.kt_retval = thr.kt_retval ∧ t.kt_errno = thr.kt_errno ∧
      t.kt_cancelled = thr.kt_cancelled ∧ t.kt_wchan = thr.kt_wchan ∧
      t.kt_state = kt_state_t.KT_RUN ∧ t.kt_qlink = false ∧ t.kt_plink = false ∧
      t.kt_proc = none ∧ t.kt_kstack ≠ none ∧ t.kt_kstack ≠ thr.kt_kstack := by
  refine ⟨slab.next, cloneNewThread mm thr fresh,
    { slab with next := slab.next + 1, avail := slab.avail - 1 }, cloneMMAfter mm,
    kthread_clone_success slab mm thr fresh hrun hslab hmm,
    rfl, rfl, rfl, rfl, rfl, rfl, rfl, rfl, by simp [cloneNewThread], ?_⟩
  intro hcontra
  cases hk : thr.kt_kstack with
  | none =>
    rw [hk] at hcontra
    simp [cloneNewThread] at hcontra
  | some a =>
    have ha := hstk a hk
    rw [hk] at hcontra
    simp only [cloneNewThread, Option.some.injEq] at hcontra
    omega

/-- C6 witness: a concrete successful clone of a thread whose own stack
lies below the allocation frontier. -/
theorem kthread_clone_C6_witness :
    ∃ addr t slab1 mm1,
      kthread_clone ⟨1, 1⟩ ⟨100, 30, []⟩ sampleThread sampleFresh =
        CloneResult.ret (some (addr, t)) slab1 mm1 ∧
      t.kt_retval = sampleThread.kt_retval ∧ t.kt_errno = sampleThread.kt_errno ∧
      t.kt_cancelled = sampleThread.kt_cancelled ∧ t.kt_wchan = sampleThread.kt_wchan ∧
      t.kt_state = kt_state_t.KT_RUN ∧ t.kt_qlink = false ∧ t.kt_plink = false ∧
      t.kt_proc = none ∧ t.kt_kstack ≠ none ∧ t.kt_kstack ≠ sampleThread.kt_kstack :=
  kthread_clone_C6 ⟨1, 1⟩ ⟨100, 30, []⟩ sampleThread sampleFresh
    (by decide) (by decide) (by decide)
    (by intro a ha; simp [sampleThread] at ha; subst ha; show 11 < 100; decide)

/-- C10: kthread_clone allocates two distinct stacks, one bound to the
stack field of the execution context and a separate one stored in
kt_kstack; kthread_destroy on the cloned thread frees exactly the
kt_kstack region, leaves every field of the block untouched (its process
link is unlinked, so no removal happens), and therefore never frees the
context-bound stack. -/
theorem kthread_clone_destroy_C10 (slab : slab_allocator_t) (mm : MM)
    (thr fresh : kthread_t) (tp : Nat)
    (hrun : thr.kt_state = kt_state_t.KT_RUN) (hslab : 0 < slab.avail)
    (hmm : 2 * stack_npages DEFAULT_STACK_SIZE PAGE_SHIFT ≤ mm.avail)
    (h32 : mm.nextPage < 2 ^ 32) :
    ∃ addr t slab1 mm1,
      kthread_clone slab mm thr fresh = CloneResult.ret (some (addr, t)) slab1 mm1 ∧
      ∃ cstk kstk,
        t.kt_ctx.c_kstack = cstk ∧ t.kt_kstack = some kstk ∧ cstk ≠ kstk ∧
        kthread_destroy mm1 (some tp) t =
          some (t, page_free_n mm1 kstk (stack_npages DEFAULT_STACK_SIZE PAGE_SHIFT)) ∧
        (page_free_n mm1 kstk (stack_npages DEFAULT_STACK_SIZE PAGE_SHIFT)).freed =
          mm1.freed ++ [(kstk, stack_npages DEFAULT_STACK_SIZE PAGE_SHIFT)] := by
  refine ⟨slab.next, cloneNewThread mm thr fresh,
    { slab with next := slab.next + 1, avail := slab.avail - 1 }, cloneMMAfter mm,
    kthread_clone_success slab mm thr fresh hrun hslab hmm,
    mm.nextPage % 2 ^ 32,
    mm.nextPage + stack_npages DEFAULT_STACK_SIZE PAGE_SHIFT,
    rfl, rfl, ?_, ?_, rfl⟩
  · have hmod : mm.nextPage % 2 ^ 32 = mm.nextPage := Nat.mod_eq_of_lt h32
    rw [hmod]
    have hpos : 0 < stack_npages DEFAULT_STACK_SIZE PAGE_SHIFT :=
      Nat.lt_of_lt_of_le Nat.zero_lt_one (Nat.le_add_right 1 _)
    omega
  · rfl

/-- C10 witness: a concrete clone followed by destroy. -/
theorem kthread_clone_destroy_C10_witness :
    ∃ addr t slab1 mm1,
      kthread_clone ⟨1, 1⟩ ⟨100, 30, []⟩ sampleThread sampleFresh =
        CloneResult.ret (some (addr, t)) slab1 mm1 ∧
      ∃ cstk kstk,
        t.kt_ctx.c_kstack = cstk ∧ t.kt_kstack = some kstk ∧ cstk ≠ kstk ∧
        kthread_destroy mm1 (some 6) t =
          some (t, page_free_n mm1 kstk (stack_npages DEFAULT_STACK_SIZE PAGE_SHIFT)) ∧
        (page_free_n mm1 kstk (stack_npages DEFAULT_STACK_SIZE PAGE_SHIFT)).freed =
          mm1.freed ++ [(kstk, stack_npages DEFAULT_STACK_SIZE PAGE_SHIFT)] :=
  kthread_clone_destroy_C10 ⟨1, 1⟩ ⟨100, 30, []⟩ sampleThread sampleFresh 6
    (by decide) (by decide) (by decide) (by decide)

/-- Helper: what kthread_destroy computes on a block with a non-null
stack field. -/
theorem kthread_destroy_eq (mm : MM) (tp : Nat) (t : kthread_t) (a : Nat)
    (h : t.kt_kstack = some a) :
    kthread_destroy mm (some tp) t =
      some (if t.kt_plink then { t with kt_plink := false } else t, free_stack mm a) := by
  simp only [kthread_destroy, h]

/-- C7 counterexample: destroying the concrete thread sampleThread twice
is not rejected: the first destroy frees stack 11 and leaves kt_kstack
set, so the second destroy passes the KASSERT (it does not abort) and
frees the same 15 page region a second time. -/
theorem kthread_destroy_C7_counterexample :
    kthread_destroy ⟨200, 0, []⟩ (some 5) sampleThread =
      some ({ sampleThread with kt_plink := false }, ⟨200, 0, [(11, 15)]⟩) ∧
    kthread_destroy ⟨200, 0, [(11, 15)]⟩ (some 5) { sampleThread with kt_plink := false } =
      some ({ sampleThread with kt_plink := false }, ⟨200, 0, [(11, 15), (11, 15)]⟩) := by
  decide

/-- C7 amended: the KASSERT of kthread_destroy covers only that the block
and its stack field are non-null; destroy does not clear the stack field,
so a second destroy of the same control block passes the assertion and
frees the stack region a second time. That the thread never executes
again is an unasserted caller obligation. -/
theorem kthread_destroy_C7_amended (mm : MM) (tp : Nat) (t : kthread_t) (a : Nat)
    (h : t.kt_kstack = some a) :
    ∃ t1 mm1 t2 mm2,
      kthread_destroy mm (some tp) t = some (t1, mm1) ∧
      t1.kt_kstack = some a ∧
      kthread_destroy mm1 (some tp) t1 = some (t2, mm2) ∧
      mm2.freed = mm.freed ++
        [(a, stack_npages DEFAULT_STACK_SIZE PAGE_SHIFT),
         (a, stack_npages DEFAULT_STACK_SIZE PAGE_SHIFT)] ∧
      (∀ t0 : kthread_t, t0.kt_kstack = none → kthread_destroy mm (some tp) t0 = none) ∧
      kthread_destroy mm none t = none := by
  have h1 := kthread_destroy_eq mm tp t a h
  set t1 : kthread_t := if t.kt_plink then { t with kt_plink := false } else t with ht1
  have h1k : t1.kt_kstack = some a := by
    rw [ht1]
    split
    · simpa using h
    · exact h
  have h1p : t1.kt_plink = false := by
    rw [ht1]
    split
    · rfl
    · next hpp => simpa using hpp
  have h2 := kthread_destroy_eq (free_stack mm a) tp t1 a h1k
  rw [h1p] at h2
  simp only [Bool.false_eq_true, if_false] at h2
  refine ⟨t1, free_stack mm a, t1, free_stack (free_stack mm a) a, h1, h1k, h2, ?_, ?_, ?_⟩
  · simp [free_stack, page_free_n]
  · intro t0 h0
    simp [kthread_destroy, h0]
  · rfl

/-- C7 amended witness: the concrete double destroy of sampleThread. -/
theorem kthread_destroy_C7_amended_witness :
    ∃ t1 mm1 t2 mm2,
      kthread_destroy ⟨200, 0, []⟩ (some 5) sampleThread = some (t1, mm1) ∧
      t1.kt_kstack = some 11 ∧
      kthread_destroy mm1 (some 5) t1 = some (t2, mm2) ∧
      mm2.freed = [] ++
        [(11, stack_npages DEFAULT_STACK_SIZE PAGE_SHIFT),
         (11, stack_npages DEFAULT_STACK_SIZE PAGE_SHIFT)] ∧
      (∀ t0 : kthread_t, t0.kt_kstack = none →
        kthread_destroy ⟨200, 0, []⟩ (some 5) t0 = none) ∧
      kthread_destroy ⟨200, 0, []⟩ none sampleThread = none :=
  kthread_destroy_C7_amended ⟨200, 0, []⟩ 5 sampleThread 11 (by decide)

/-- C8: the queue membership invariant, linked iff SLEEPING with a
non-null wait channel plus wait channel null unless SLEEPING, is
preserved by every operation of this core: the thread kthread_create
returns satisfies it, the final state kthread_exit hands off satisfies
it, kthread_cancel keeps it for the target assuming the target satisfied
it, kthread_clone keeps it for the new block assuming the source
satisfied it, and kthread_destroy keeps it for the block it reclaims. -/
theorem invariant_C8
    (slab : slab_allocator_t) (mm : MM) (pid : Nat) (p : proc_t) (func arg1 arg2 : Nat)
    (cur kthr thr fresh dt : kthread_t) (cp r : Option Nat) (curId tid tp : Nat)
    (hK : ktInv kthr = true) (hT : ktInv thr = true) (hD : ktInv dt = true) :
    (∀ addr tn p1 s1 m1,
      kthread_create slab mm (some pid) p func arg1 arg2 =
        CreateResult.ret (some (addr, tn)) p1 s1 m1 → ktInv tn = true) ∧
    (∀ tn tr, kthread_exit cur cp r = ExitResult.handoff tn tr → ktInv tn = true) ∧
    (∀ t2, kthread_cancel curId cur cp (some tid) kthr r = CancelResult.ret t2 →
      ktInv t2 = true) ∧
    (∀ addr tn s1 m1,
      kthread_clone slab mm thr fresh = CloneResult.ret (some (addr, tn)) s1 m1 →
      ktInv tn = true) ∧
    (∀ t1 m1, kthread_destroy mm (some tp) dt = some (t1, m1) → ktInv t1 = true) := by
  refine ⟨?_, ?_, ?_, ?_, ?_⟩
  · intro addr tn p1 s1 m1 hh
    unfold kthread_create at hh
    rw [if_neg (by simp)] at hh
    rcases hc : slab_obj_alloc slab with ⟨o, s⟩
    rw [hc] at hh
    rcases o with _ | a2
    · exact absurd hh (by simp)
    · rcases ha : alloc_stack mm with ⟨o2, m⟩
      rw [ha] at hh
      rcases o2 with _ | stk
      · exact absurd hh (by simp)
      · simp only [CreateResult.ret.injEq, Option.some.injEq, Prod.mk.injEq] at hh
        obtain ⟨⟨_, htn⟩, _⟩ := hh
        rw [← htn]
        rfl
  · intro tn tr hh
    unfold kthread_exit at hh
    dsimp only at hh
    split_ifs at hh with h1 h2 h3
    simp only [ExitResult.handoff.injEq] at hh
    obtain ⟨htn, _⟩ := hh
    rw [← htn]
    simp only [ktInv, ktSleeping] at h1 ⊢
    simp only [not_not] at h1
    simp [h1, h2]
  · intro t2 hh
    unfold kthread_cancel at hh
    rw [if_neg (by simp)] at hh
    by_cases htid : (some tid : Option Nat) = some curId
    · rw [if_pos htid] at hh
      exact absurd hh (by simp)
    · rw [if_neg htid] at hh
      simp only [CancelResult.ret.injEq] at hh
      rw [← hh]
      unfold sched_cancel
      dsimp only
      split
      · rfl
      · simpa [ktInv, ktSleeping] using hK
  · intro addr tn s1 m1 hh
    unfold kthread_clone at hh
    split_ifs at hh with hst
    rcases hc : slab_obj_alloc slab with ⟨o, s⟩
    rw [hc] at hh
    rcases o with _ | a2
    · exact absurd hh (by simp)
    · rcases ha : alloc_stack mm with ⟨o2, m⟩
      rw [ha] at hh
      rcases o2 with _ | cstk
      · exact absurd hh (by simp)
      · dsimp only at hh
        rcases ha2 : alloc_stack m with ⟨o3, m2⟩
        rw [ha2] at hh
        rcases o3 with _ | kstk
        · exact absurd hh (by simp)
        · simp only [CloneResult.ret.injEq, Option.some.injEq, Prod.mk.injEq] at hh
          obtain ⟨⟨_, htn⟩, _⟩ := hh
          rw [← htn]
          have hrun : thr.kt_state = kt_state_t.KT_RUN := by
            by_contra hx
            exact hst hx
          have hwch : thr.kt_wchan = none := by
            simp [ktInv, ktSleeping, hrun] at hT
            exact hT.2
          simp [ktInv, ktSleeping, hwch]
  · intro t1 m1 hh
    rcases hk : dt.kt_kstack with _ | a
    · have hnone : kthread_destroy mm (some tp) dt = none := by
        simp [kthread_destroy, hk]
      rw [hnone] at hh
      exact absurd hh (by simp)
    · rw [kthread_destroy_eq mm tp dt a hk] at hh
      simp only [Option.some.injEq, Prod.mk.injEq] at hh
      obtain ⟨ht1, _⟩ := hh
      rw [← ht1]
      split
      · simpa [ktInv, ktSleeping] using hD
      · exact hD

/-- C8 witness: the invariant holds for the concrete thread that
kthread_exit hands off. -/
theorem invariant_C8_witness :
    ktInv { sampleThread with kt_retval := some 99, kt_state := kt_state_t.KT_EXITED } = true :=
  (invariant_C8 ⟨1, 1⟩ ⟨100, 30, []⟩ 5 ⟨77, [9]⟩ 7 3 4 sampleThread sampleSleeper
      sampleThread sampleFresh sampleThread (some 1) (some 99) 5 6 6
      (by decide) (by decide) (by decide)).2.1
    { sampleThread with kt_retval := some 99, kt_state := kt_state_t.KT_EXITED }
    [KtEvent.setRetval (some 99), KtEvent.setState kt_state_t.KT_EXITED,
     KtEvent.notifyProcThreadExited (some 99)]
    (by decide)

/-- C9: alloc_stack requests exactly one page more than the stack size in
pages, which equals the ceiling of DEFAULT_STACK_SIZE over the page size
plus one whenever the stack size is page aligned; allocation returns a
failure signal on exhaustion instead of aborting or retrying; and
free_stack hands back exactly the page count that allocation requested. -/
theorem stack_npages_C9 (dss pw : Nat) (mm : MM)
    (hdiv : 2 ^ pw ∣ dss) (hex : mm.avail < stack_npages dss pw) :
    stack_npages dss pw = (dss + 2 ^ pw - 1) / 2 ^ pw + 1 ∧
    (page_alloc_n mm (stack_npages dss pw)).1 = none ∧
    (∀ mm2 : MM,
      alloc_stack mm2 = page_alloc_n mm2 (stack_npages DEFAULT_STACK_SIZE PAGE_SHIFT)) ∧
    (∀ (mm2 : MM) (stk : Nat),
      free_stack mm2 stk = page_free_n mm2 stk (stack_npages DEFAULT_STACK_SIZE PAGE_SHIFT)) := by
  refine ⟨?_, ?_, fun mm2 => rfl, fun mm2 stk => rfl⟩
  · obtain ⟨k, hk⟩ := hdiv
    subst hk
    have hp : 0 < 2 ^ pw := Nat.pos_pow_of_pos pw (by omega)
    rw [stack_npages, Nat.shiftRight_eq_div_pow, Nat.mul_div_cancel_left k hp,
      Nat.add_sub_assoc (by omega : 1 ≤ 2 ^ pw), Nat.mul_add_div hp,
      Nat.div_eq_of_lt (by omega : 2 ^ pw - 1 < 2 ^ pw)]
    omega
  · rw [page_alloc_n_gt mm _ hex]

/-- C9 witness: the stock configuration, 56 KiB stacks and 4 KiB pages,
asks for 15 pages, and an allocator with only 14 pages left fails. -/
theorem stack_npages_C9_witness :
    stack_npages 57344 12 = (57344 + 2 ^ 12 - 1) / 2 ^ 12 + 1 ∧
    (page_alloc_n ⟨1, 14, []⟩ (stack_npages 57344 12)).1 = none ∧
    (∀ mm2 : MM,
      alloc_stack mm2 = page_alloc_n mm2 (stack_npages DEFAULT_STACK_SIZE PAGE_SHIFT)) ∧
    (∀ (mm2 : MM) (stk : Nat),
      free_stack mm2 stk = page_free_n mm2 stk (stack_npages DEFAULT_STACK_SIZE PAGE_SHIFT)) :=
  stack_npages_C9 57344 12 ⟨1, 14, []⟩ (by decide) (by decide)

end KThread
